import Mathlib

/-!
Shallow embedding of the NomadPal backend's hybrid result-aggregation layer:
the merge engine (`PythonService.mergeCityData`), the pagination resolver
(`paginateResults` in `utils/helpers.js`), the sort-parameter validation and
pagination assembly of the cities routes, the ML-enrichment step of the
cities listing route, and the personalized-route pagination passthrough
(`PythonService.getPersonalizedCities` plus the `GET /personalized` handler).

JavaScript numbers carrying scores are modelled as rationals; JavaScript
objects are modelled as structures whose statically irrelevant fields are an
opaque association list (`rest`), so that the object spread `{...dbCity, ...}`
becomes a record update that keeps `rest` verbatim.  Fields that a JavaScript
object may lack (`predicted_score`, `ml_enhanced` before enrichment, the
fields of an upstream pagination block) are `Option`-valued, `none` standing
for an absent property.
-/

/-- A prediction record from the Python ML service: the merge reads only
`name`, `country` and `predicted_score` of each element of `mlCities`. -/
structure MlCity where
  name : String
  country : String
  predicted_score : ℚ
  deriving DecidableEq, Repr

/-- A city object flowing through the route handlers.  `rest` stands for all
remaining properties of the JavaScript object (description, costs, ...);
`predicted_score` and `ml_enhanced` are `none` when the object does not carry
these properties. -/
structure CityObj where
  name : String
  country : String
  rest : List (String × String)
  predicted_score : Option ℚ
  ml_enhanced : Option Bool
  deriving DecidableEq, Repr

/-- JavaScript `toLowerCase()`: lower-case every character (character-list
form of `String.toLower`, which the kernel can evaluate). -/
def jsToLowerCase (s : String) : String := ⟨s.data.map Char.toLower⟩

/-- The merge key: `` `${name?.toLowerCase()}_${country?.toLowerCase()}` `` -/
def cityKey (name country : String) : String :=
  jsToLowerCase name ++ "_" ++ jsToLowerCase country

/-- Merge key of a database city object. -/
def objKey (c : CityObj) : String := cityKey c.name c.country

/-- Merge key of an ML prediction record. -/
def mlKey (p : MlCity) : String := cityKey p.name p.country

/-- One `mlMap.set` step of the `mlCities.forEach` loop in
`mergeCityData`: a later entry with the same key overwrites an earlier one. -/
def mlMapStep (k : String) (acc : Option MlCity) (p : MlCity) : Option MlCity :=
  if mlKey p = k then some p else acc

/-- `mlMap.get(key)` after the `forEach` loop that populates the map:
the last element of `mlCities` whose merge key equals `k`, if any. -/
def mlLookup (mlCities : List MlCity) (k : String) : Option MlCity :=
  mlCities.foldl (mlMapStep k) none

/-- `PythonService.mergeCityData` (src/services/python.service.js, lines
256-287) restricted to array inputs: build the key-indexed map of
`mlCities`, then map each `dbCity` to a spread copy carrying either the
matched prediction's score with `ml_enhanced=true`, or the default score `0`
with `ml_enhanced=false`. -/
def mergeCityData (dbCities : List CityObj) (mlCities : List MlCity) : List CityObj :=
  dbCities.map fun dbCity =>
    match mlLookup mlCities (objKey dbCity) with
    | some mlCity =>
        { dbCity with predicted_score := some mlCity.predicted_score, ml_enhanced := some true }
    | none =>
        { dbCity with predicted_score := some 0, ml_enhanced := some false }

/-- The enriched copy produced for a matched record. -/
def enhanceWith (c : CityObj) (p : MlCity) : CityObj :=
  { c with predicted_score := some p.predicted_score, ml_enhanced := some true }

/-- The degraded copy: `{ ...city, predicted_score: 0, ml_enhanced: false }`. -/
def degradeCity (c : CityObj) : CityObj :=
  { c with predicted_score := some 0, ml_enhanced := some false }


/-! ### The listing route's predicted-score ordering (cities router, GET /) -/

/-- The sort key of the comparator
`(a, b) => (b.predicted_score || 0) - (a.predicted_score || 0)`:
a missing (or zero) score counts as `0`. -/
def scoreKey (c : CityObj) : ℚ := c.predicted_score.getD 0

/-- `a` may come before `b` under the descending-score comparator. -/
def scoreDescRel (a b : CityObj) : Prop := scoreKey b ≤ scoreKey a

instance : DecidableRel scoreDescRel :=
  fun a b => inferInstanceAs (Decidable (scoreKey b ≤ scoreKey a))

instance : IsTotal CityObj scoreDescRel :=
  ⟨fun a b => le_total (scoreKey b) (scoreKey a)⟩

instance : IsTrans CityObj scoreDescRel :=
  ⟨fun _ _ _ hab hbc => le_trans hbc hab⟩

/-- `enhancedCities.sort((a, b) => (b.predicted_score || 0) - (a.predicted_score || 0))`:
`Array.prototype.sort` is a stable sort (ECMA-262), modelled by the stable
`insertionSort` on the descending-score order. -/
def sortByScoreDesc (cities : List CityObj) : List CityObj :=
  cities.insertionSort scoreDescRel

/-- The conditional re-sort after a successful merge in the listing handler:
`if (sort_by === 'name' && sort_order === 'ASC') enhancedCities.sort(...)`,
where `sort_by`/`sort_order` are the query parameters after destructuring
defaults `'name'`/`'ASC'` (so an absent parameter is indistinguishable from an
explicit `name`/`ASC`). -/
def listingSortStep (sort_by sort_order : Option String) (cities : List CityObj) :
    List CityObj :=
  if sort_by.getD "name" = "name" ∧ sort_order.getD "ASC" = "ASC" then
    sortByScoreDesc cities
  else cities

/-- Outcome of the ML block of the listing handler:
`ok data` = probe succeeded and `getTopCities` returned `data`;
`unavailable` = `isAvailable()` returned false;
`error` = the probe or fetch threw (timeout, connection refusal, ...). -/
inductive MlFetchOutcome where
  | ok (data : List MlCity)
  | unavailable
  | error
  deriving DecidableEq, Repr

/-- The ML-enrichment step of the cities listing handler (`GET /`, cities
router): on success with nonempty data, merge and conditionally re-sort; on
success with empty data the rows pass through untouched (no ML fields); if
the probe fails or anything throws, every row gets the default score and
`ml_enhanced=false`. -/
def enrichListing (dbCities : List CityObj) (outcome : MlFetchOutcome)
    (sort_by sort_order : Option String) : List CityObj :=
  match outcome with
  | .ok data =>
      if data.isEmpty then dbCities
      else listingSortStep sort_by sort_order (mergeCityData dbCities data)
  | .unavailable => dbCities.map degradeCity
  | .error => dbCities.map degradeCity

/-- The listing handler after a successful record-store query: the ML block
is wrapped in try/catch, so whatever the prediction source does the handler
reaches `successResponse` and returns HTTP 200 with the enriched rows. -/
def listingHandler (dbCities : List CityObj) (outcome : MlFetchOutcome)
    (sort_by sort_order : Option String) : ℕ × List CityObj :=
  (200, enrichListing dbCities outcome sort_by sort_order)

/-! ### `paginateResults` (src/utils/helpers.js, lines 64-69) -/

/-- A JavaScript value arriving at `paginateResults`: an integer number, a
string, `null`, or `undefined` (also standing for a missing argument). -/
inductive JsVal where
  | num (n : ℤ)
  | str (s : String)
  | null
  | undef
  deriving DecidableEq, Repr

/-- Value of the leading decimal-digit run of `cs`; `none` when `cs` does not
start with a digit. -/
def leadingDigitsVal (cs : List Char) : Option ℕ :=
  let ds := cs.takeWhile Char.isDigit
  if ds.isEmpty then none
  else some (ds.foldl (fun n c => 10 * n + (c.toNat - 48)) 0)

/-- `parseInt` on a string: trim whitespace, optional sign, longest leading
digit run; `NaN` (here `none`) if no digits follow.  (The hexadecimal `0x`
form is not modelled; no caller passes one.) -/
def jsParseIntStr (s : String) : Option ℤ :=
  match s.trim.toList with
  | '-' :: cs => (leadingDigitsVal cs).map (fun n => -(n : ℤ))
  | '+' :: cs => (leadingDigitsVal cs).map (fun n => (n : ℤ))
  | cs => (leadingDigitsVal cs).map (fun n => (n : ℤ))

/-- `parseInt` on a JavaScript value: an integer number parses to itself,
`null` and `undefined` stringify to non-numeric text, hence `NaN`. -/
def jsParseInt : JsVal → Option ℤ
  | .num n => some n
  | .str s => jsParseIntStr s
  | .null => none
  | .undef => none

/-- `parseInt(v) || d`: the default replaces both `NaN` and the falsy `0`. -/
def jsIntOrDefault (v : Option ℤ) (d : ℤ) : ℤ :=
  match v with
  | some n => if n = 0 then d else n
  | none => d

/-- `const pageNum = parseInt(page) || 1` after the default parameter
`page = 1` replaced an `undefined` argument. -/
def resolvePageNum (page : JsVal) : ℤ :=
  jsIntOrDefault (jsParseInt (match page with | .undef => .num 1 | v => v)) 1

/-- `const limitNum = parseInt(limit) || 10` after the default parameter
`limit = 10` replaced an `undefined` argument. -/
def resolveLimitNum (limit : JsVal) : ℤ :=
  jsIntOrDefault (jsParseInt (match limit with | .undef => .num 10 | v => v)) 10

/-- `paginateResults(page, limit)` returning `(offset, limit)`.  The source's
`offset = parseInt((pageNum - 1) * limitNum)` is the identity on the integer
product, so the offset is the product itself. -/
def paginateResults (page limit : JsVal) : ℤ × ℤ :=
  ((resolvePageNum page - 1) * resolveLimitNum limit, resolveLimitNum limit)

/-! ### Sort-parameter validation (cities router, GET /filter and GET /) -/

/-- The allow-list of sortable record-store columns. -/
def allowedSortFields : List String :=
  ["name", "country", "monthly_cost_usd", "safety_score",
   "nightlife_rating", "transport_rating"]

/-- The allow-list of sort directions. -/
def allowedSortOrders : List String := ["ASC", "DESC"]

/-- `sort_order.toUpperCase()`: upper-case every character (character-list
form of `String.toUpper`, which the kernel can evaluate). -/
def jsToUpper (s : String) : String := ⟨s.data.map Char.toUpper⟩

/-- `const sortField = allowedSortFields.includes(sort_by) ? sort_by : 'name'`. -/
def resolveSortField (sort_by : String) : String :=
  if sort_by ∈ allowedSortFields then sort_by else "name"

/-- `const sortOrder = allowedSortOrders.includes(sort_order.toUpperCase())
? sort_order.toUpperCase() : 'ASC'`. -/
def resolveSortOrder (sort_order : String) : String :=
  if jsToUpper sort_order ∈ allowedSortOrders then jsToUpper sort_order else "ASC"

/-- The `ORDER BY` pair sent to the record store. -/
def resolveSort (sort_by sort_order : String) : String × String :=
  (resolveSortField sort_by, resolveSortOrder sort_order)

/-! ### Pagination metadata assembly of the listing responses -/

/-- The `pagination` block of a listing response body. -/
structure ListPagination where
  current_page : ℤ
  total_pages : ℕ
  total_items : ℕ
  items_per_page : ℕ
  has_next_page : Bool
  has_prev_page : Bool
  deriving DecidableEq, Repr

/-- `Math.ceil(total / limit)` on nonnegative integers. -/
def mathCeilDiv (total limit : ℕ) : ℕ := ⌈(total : ℚ) / (limit : ℚ)⌉₊

/-- The pagination assembly shared by the listing routes:
`totalPages = Math.ceil(total / queryLimit)`,
`hasNextPage = pageNum < totalPages`, `hasPrevPage = pageNum > 1`. -/
def buildListPagination (pageNum : ℤ) (total limit : ℕ) : ListPagination :=
  { current_page := pageNum
    total_pages := mathCeilDiv total limit
    total_items := total
    items_per_page := limit
    has_next_page := decide (pageNum < (mathCeilDiv total limit : ℤ))
    has_prev_page := decide (1 < pageNum) }

/-! ### The personalized path (`GET /personalized` and
`PythonService.getPersonalizedCities`) -/

/-- The `pagination` block of the Python service's personalized response;
every field optional, as with any JavaScript object. -/
structure UpstreamPagination where
  offset : Option ℤ
  current_page : Option ℤ
  total_pages : Option ℤ
  has_next_page : Option Bool
  has_prev_page : Option Bool
  deriving DecidableEq, Repr

/-- The empty object `{}` substituted by `response.data.pagination || {}`. -/
def emptyUpstreamPagination : UpstreamPagination := ⟨none, none, none, none, none⟩

/-- Body of a successful personalized response from the Python service:
`{data, total, limit, pagination}` (`user_preferences` omitted as opaque). -/
structure PersonalizedUpstream where
  data : List CityObj
  total : Option ℤ
  limit : Option ℤ
  pagination : Option UpstreamPagination
  deriving DecidableEq, Repr

/-- The object `PythonService.getPersonalizedCities` returns on success
(src/services/python.service.js, lines 219-244). -/
structure PersonalizedResult where
  success : Bool
  data : List CityObj
  total : Option ℤ
  limit : Option ℤ
  offset : Option ℤ
  current_page : Option ℤ
  total_pages : Option ℤ
  has_next_page : Option Bool
  has_prev_page : Option Bool
  deriving DecidableEq, Repr

/-- `getPersonalizedCities` on a successful upstream response: copy `data`,
`total`, `limit` from the top level and the remaining fields out of
`response.data.pagination || {}`; `success` is always `true` here (any
failure throws instead). -/
def getPersonalizedCitiesResult (u : PersonalizedUpstream) : PersonalizedResult :=
  let pagination := u.pagination.getD emptyUpstreamPagination
  { success := true
    data := u.data
    total := u.total
    limit := u.limit
    offset := pagination.offset
    current_page := pagination.current_page
    total_pages := pagination.total_pages
    has_next_page := pagination.has_next_page
    has_prev_page := pagination.has_prev_page }

/-- The `pagination` block of the `GET /personalized` response body. -/
structure RespPagination where
  current_page : Option ℤ
  total_pages : Option ℤ
  total_items : Option ℤ
  items_per_page : Option ℤ
  has_next_page : Option Bool
  has_prev_page : Option Bool
  deriving DecidableEq, Repr

/-- The pagination assembly of `GET /personalized` (cities router):
`{current_page: mlResult.current_page, total_pages: mlResult.total_pages,
total_items: mlResult.total, items_per_page: mlResult.limit, ...}`. -/
def personalizedRespPagination (r : PersonalizedResult) : RespPagination :=
  { current_page := r.current_page
    total_pages := r.total_pages
    total_items := r.total
    items_per_page := r.limit
    has_next_page := r.has_next_page
    has_prev_page := r.has_prev_page }

/-- Outcome of the `getPersonalizedCities` call inside the handler:
`ok u` = the upstream answered; `err` = the call threw (upstream
unavailable, timeout, or non-2xx, rethrown by `handleError`). -/
inductive PersonalizedOutcome where
  | ok (u : PersonalizedUpstream)
  | err
  deriving DecidableEq, Repr

/-- The `GET /personalized` handler after authentication and the user-
preference lookup succeeded: a successful upstream call yields HTTP 200 with
the upstream rows and the passed-through pagination block; a throwing call
lands in the route's catch, which sends HTTP 500 (`errorResponse`). -/
def personalizedHandler (o : PersonalizedOutcome) :
    ℕ × Option (List CityObj × RespPagination) :=
  match o with
  | .ok u =>
      let r := getPersonalizedCitiesResult u
      (200, some (r.data, personalizedRespPagination r))
  | .err => (500, none)

/-! ### Concrete objects used in scenarios and counterexamples -/

/-- The record `{name: "Lisbon", country: "Portugal"}` of Scenario A. -/
def exCityLisbon : CityObj := ⟨"Lisbon", "Portugal", [], none, none⟩

/-- A record with no matching prediction. -/
def exCityParis : CityObj := ⟨"Paris", "France", [], none, none⟩

/-- A third plain record. -/
def exCityAthens : CityObj := ⟨"Athens", "Greece", [], none, none⟩

/-- The prediction `{name: "lisbon", country: "PORTUGAL", predicted_score: 0.72}`
of Scenario A. -/
def exPredLisbon : MlCity := ⟨"lisbon", "PORTUGAL", 72/100⟩

/-- A prediction for Paris, key-distinct from `exPredLisbon`. -/
def exPredParis : MlCity := ⟨"paris", "france", 1/2⟩

/-- A second Lisbon prediction with the same merge key as `exPredLisbon`
but a different score. -/
def exPredLisbonDup : MlCity := ⟨"LISBON", "Portugal", 1/4⟩

/-- An already-enriched record with the lower score. -/
def exEnrichedLow : CityObj := ⟨"Alpha", "X", [], some 1, some true⟩

/-- An already-enriched record with the higher score. -/
def exEnrichedHigh : CityObj := ⟨"Beta", "Y", [], some 2, some true⟩

/-- A personalized upstream response carrying Scenario D's pagination block
`{current_page: 2, total_pages: 5, ...}`. -/
def exUpstream : PersonalizedUpstream :=
  { data := [exCityLisbon]
    total := some 87
    limit := some 20
    pagination := some ⟨some 20, some 2, some 5, some true, some true⟩ }

theorem mergeCityData_length (R : List CityObj) (P : List MlCity) :
    (mergeCityData R P).length = R.length := by
  simp [mergeCityData]

/-- If no element of `mlCities` matches `k`, the fold leaves the accumulator. -/
theorem mlLookup_aux_no_match {P : List MlCity} {k : String}
    (h : ∀ p ∈ P, mlKey p ≠ k) (acc : Option MlCity) :
    P.foldl (mlMapStep k) acc = acc := by
  induction P generalizing acc with
  | nil => rfl
  | cons a ps ih =>
      have ha : mlKey a ≠ k := h a (List.mem_cons_self _ _)
      have hps : ∀ p ∈ ps, mlKey p ≠ k := fun p hp => h p (List.mem_cons_of_mem _ hp)
      simp [List.foldl, mlMapStep, ha, ih hps]

/-- If the fold returns `some q` then `q` matched in the list, unless it was
already the accumulator. -/
theorem mlLookup_aux_some {P : List MlCity} {k : String} {acc : Option MlCity} {q : MlCity}
    (h : P.foldl (mlMapStep k) acc = some q) :
    (q ∈ P ∧ mlKey q = k) ∨ acc = some q := by
  induction P generalizing acc with
  | nil => exact Or.inr h
  | cons a ps ih =>
      rcases ih h with hq | hacc
      · exact Or.inl ⟨List.mem_cons_of_mem _ hq.1, hq.2⟩
      · by_cases ha : mlKey a = k
        · simp [mlMapStep, ha] at hacc
          exact Or.inl ⟨by simp [hacc], hacc ▸ ha⟩
        · simp [mlMapStep, ha] at hacc
          exact Or.inr hacc

/-- If some element of `P` matches `k`, the fold returns a matching element of
`P`, whatever the accumulator. -/
theorem mlLookup_aux_exists {P : List MlCity} {k : String}
    (h : ∃ p ∈ P, mlKey p = k) (acc : Option MlCity) :
    ∃ q, q ∈ P ∧ mlKey q = k ∧ P.foldl (mlMapStep k) acc = some q := by
  induction P generalizing acc with
  | nil => rcases h with ⟨p, hp, _⟩; cases hp
  | cons a ps ih =>
      by_cases hps : ∃ p ∈ ps, mlKey p = k
      · rcases ih hps (mlMapStep k acc a) with ⟨q, hq, hk, heq⟩
        exact ⟨q, List.mem_cons_of_mem _ hq, hk, heq⟩
      · rcases h with ⟨p, hp, hk⟩
        rcases List.mem_cons.1 hp with rfl | hmem
        · refine ⟨p, List.mem_cons_self _ _, hk, ?_⟩
          have : ∀ q ∈ ps, mlKey q ≠ k := by
            intro q hq hqk; exact hps ⟨q, hq, hqk⟩
          simp only [List.foldl]
          rw [mlLookup_aux_no_match this]
          simp [mlMapStep, hk]
        · exact absurd ⟨p, hmem, hk⟩ hps

/-- Forward characterization of `mlLookup`: a hit is a matching member. -/
theorem mlLookup_some_mem {P : List MlCity} {k : String} {q : MlCity}
    (h : mlLookup P k = some q) : q ∈ P ∧ mlKey q = k := by
  rcases @mlLookup_aux_some P k none q h with hq | hacc
  · exact hq
  · cases hacc

/-- `mlLookup` misses exactly when no member matches. -/
theorem mlLookup_eq_none_iff {P : List MlCity} {k : String} :
    mlLookup P k = none ↔ ∀ p ∈ P, mlKey p ≠ k := by
  constructor
  · intro h p hp hk
    rcases mlLookup_aux_exists ⟨p, hp, hk⟩ none with ⟨q, _, _, heq⟩
    rw [mlLookup] at h
    rw [h] at heq
    cases heq
  · intro h
    exact mlLookup_aux_no_match h none

/-- If the element matching `k` is unique, `mlLookup` returns exactly it. -/
theorem mlLookup_unique {P : List MlCity} {k : String} {p : MlCity}
    (hp : p ∈ P) (hk : mlKey p = k)
    (huniq : ∀ q ∈ P, mlKey q = k → q = p) :
    mlLookup P k = some p := by
  rcases mlLookup_aux_exists ⟨p, hp, hk⟩ none with ⟨q, hq, hqk, heq⟩
  rw [mlLookup, heq, huniq q hq hqk]

/-! ### Stability of the predicted-score sort -/

/-- Inserting an element whose key equals `s` places it before every
equal-keyed element: the `s`-class of the result is the element followed by
the old `s`-class. -/
theorem filter_orderedInsert_of_eq (x : CityObj) (s : ℚ) (hx : scoreKey x = s) :
    ∀ L : List CityObj,
      (L.orderedInsert scoreDescRel x).filter (fun c => scoreKey c = s) =
        x :: L.filter (fun c => scoreKey c = s) := by
  intro L
  induction L with
  | nil => simp [List.orderedInsert, hx]
  | cons b l ih =>
      by_cases hb : scoreDescRel x b
      · simp [List.orderedInsert, hb, hx]
      · have hbs : ¬ scoreKey b = s := by
          intro hbs
          exact hb (by simp [scoreDescRel, hbs, hx])
        simp [List.orderedInsert, hb, hbs, ih]

/-- Inserting an element whose key differs from `s` leaves the `s`-class
unchanged. -/
theorem filter_orderedInsert_of_ne (x : CityObj) (s : ℚ) (hx : ¬ scoreKey x = s) :
    ∀ L : List CityObj,
      (L.orderedInsert scoreDescRel x).filter (fun c => scoreKey c = s) =
        L.filter (fun c => scoreKey c = s) := by
  intro L
  induction L with
  | nil => simp [List.orderedInsert, hx]
  | cons b l ih =>
      by_cases hb : scoreDescRel x b
      · simp [List.orderedInsert, hb, hx]
      · by_cases hbs : scoreKey b = s <;> simp [List.orderedInsert, hb, hbs, ih]

/-- Stability of the score sort: every equal-score class keeps its original
relative order. -/
theorem filter_sortByScoreDesc (l : List CityObj) (s : ℚ) :
    (sortByScoreDesc l).filter (fun c => scoreKey c = s) =
      l.filter (fun c => scoreKey c = s) := by
  induction l with
  | nil => rfl
  | cons x xs ih =>
      show ((List.insertionSort scoreDescRel xs).orderedInsert scoreDescRel x).filter _ = _
      by_cases hx : scoreKey x = s
      · rw [filter_orderedInsert_of_eq x s hx]
        simp [sortByScoreDesc] at ih
        simp [ih, hx]
      · rw [filter_orderedInsert_of_ne x s hx]
        simp [sortByScoreDesc] at ih
        simp [ih, hx]

/-! ### Arithmetic of the pagination assembly -/

/-- `Math.ceil(total / limit)` over nonnegative integers agrees with the
rounded-up integer division `(total + limit - 1) / limit`. -/
theorem mathCeilDiv_eq (total limit : ℕ) (hlim : 1 ≤ limit) :
    mathCeilDiv total limit = (total + limit - 1) / limit := by
  have hl : 0 < limit := hlim
  have hq : (0 : ℚ) < (limit : ℚ) := by exact_mod_cast hl
  have key : ∀ n : ℕ, mathCeilDiv total limit ≤ n ↔ total ≤ n * limit := by
    intro n
    rw [mathCeilDiv, Nat.ceil_le, div_le_iff₀ hq]
    exact_mod_cast Iff.rfl
  have key2 : ∀ n : ℕ, (total + limit - 1) / limit ≤ n ↔ total ≤ n * limit := by
    intro n
    rw [Nat.div_le_iff_le_mul_add_pred hl, Nat.mul_comm]
    omega
  exact le_antisymm ((key _).2 ((key2 _).1 le_rfl)) ((key2 _).2 ((key _).1 le_rfl))

/-- The least-overcount characterization of `Math.ceil(total / limit)`. -/
theorem mathCeilDiv_spec (total limit : ℕ) (hlim : 1 ≤ limit) :
    total ≤ mathCeilDiv total limit * limit ∧
      ∀ m : ℕ, total ≤ m * limit → mathCeilDiv total limit ≤ m := by
  have hq : (0 : ℚ) < (limit : ℚ) := by exact_mod_cast hlim
  have key : ∀ n : ℕ, mathCeilDiv total limit ≤ n ↔ total ≤ n * limit := by
    intro n
    rw [mathCeilDiv, Nat.ceil_le, div_le_iff₀ hq]
    exact_mod_cast Iff.rfl
  exact ⟨(key _).1 le_rfl, fun m hm => (key m).2 hm⟩

/-! ### Claim theorems -/

/-- Claim C3 (confirmed): `mergeCityData` joins on the key
`lowercase(name) + "_" + lowercase(country)`: a record whose key has a
(unique) match in the predictions receives that prediction's
`predicted_score` with `ml_enhanced=true`; a record whose key is absent from
the predictions receives `predicted_score=0` with `ml_enhanced=false`; and in
particular Scenario A's record `{name: "Lisbon", country: "Portugal"}`
matched against `{name: "lisbon", country: "PORTUGAL",
predicted_score: 0.72}` yields `predicted_score=0.72, ml_enhanced=true`. -/
theorem claim3_merge_join (R : List CityObj) (P : List MlCity) (i : ℕ) (r : CityObj)
    (hr : R[i]? = some r) :
    ((∀ p ∈ P, mlKey p ≠ objKey r) →
      (mergeCityData R P)[i]? = some (degradeCity r)) ∧
    (∀ p : MlCity, p ∈ P → mlKey p = objKey r →
      (∀ q ∈ P, mlKey q = objKey r → q = p) →
      (mergeCityData R P)[i]? = some (enhanceWith r p)) ∧
    mergeCityData [exCityLisbon] [exPredLisbon] =
      [{ exCityLisbon with predicted_score := some (72/100), ml_enhanced := some true }] := by
  refine ⟨?_, ?_, ?_⟩
  · intro h
    have hnone : mlLookup P (objKey r) = none := mlLookup_eq_none_iff.2 h
    simp [mergeCityData, List.getElem?_map, hr, hnone, degradeCity]
  · intro p hp hk huniq
    have hsome : mlLookup P (objKey r) = some p := mlLookup_unique hp hk huniq
    simp [mergeCityData, List.getElem?_map, hr, hsome, enhanceWith]
  · rfl

/-- Witness for C3: the join theorem applied to the two-record page
`[Lisbon, Paris]` against the single Lisbon prediction. -/
theorem claim3_merge_join_witness :
    (mergeCityData [exCityLisbon, exCityParis] [exPredLisbon])[0]? =
      some (enhanceWith exCityLisbon exPredLisbon) ∧
    (mergeCityData [exCityLisbon, exCityParis] [exPredLisbon])[1]? =
      some (degradeCity exCityParis) := by
  constructor
  · exact (claim3_merge_join [exCityLisbon, exCityParis] [exPredLisbon] 0 exCityLisbon
      rfl).2.1 exPredLisbon (List.mem_singleton.2 rfl) (by decide)
      (fun q hq _ => List.mem_singleton.1 hq)
  · exact (claim3_merge_join [exCityLisbon, exCityParis] [exPredLisbon] 1 exCityParis
      rfl).1 (by decide)

/-- Claim C10 (confirmed): `mergeCityData` returns a list of exactly the
length of `dbCities`, and the record at every index is the input record at
that same index with only `predicted_score` and `ml_enhanced` replaced —
every other field (`name`, `country` and the opaque remainder `rest`) is kept
verbatim, and no record is dropped, duplicated or reordered. -/
theorem claim10_merge_frame (R : List CityObj) (P : List MlCity) :
    (mergeCityData R P).length = R.length ∧
    ∀ i : ℕ, ∀ r : CityObj, R[i]? = some r →
      ∃ s : ℚ, ∃ b : Bool, (mergeCityData R P)[i]? =
        some { r with predicted_score := some s, ml_enhanced := some b } := by
  refine ⟨mergeCityData_length R P, ?_⟩
  intro i r hr
  cases hl : mlLookup P (objKey r) with
  | some p =>
      exact ⟨p.predicted_score, true, by simp [mergeCityData, List.getElem?_map, hr, hl]⟩
  | none =>
      exact ⟨0, false, by simp [mergeCityData, List.getElem?_map, hr, hl]⟩

/-- Witness for C10: the frame theorem applied to the two-record page
`[Lisbon, Paris]` against the single Lisbon prediction. -/
theorem claim10_merge_frame_witness :
    (mergeCityData [exCityLisbon, exCityParis] [exPredLisbon]).length = 2 ∧
    ∃ s : ℚ, ∃ b : Bool, (mergeCityData [exCityLisbon, exCityParis] [exPredLisbon])[1]? =
      some { exCityParis with predicted_score := some s, ml_enhanced := some b } := by
  have h := claim10_merge_frame [exCityLisbon, exCityParis] [exPredLisbon]
  exact ⟨h.1.trans rfl, h.2 1 exCityParis rfl⟩

/-- Claim C5 counterexample: with two predictions sharing one merge key but
carrying different scores, permuting the prediction array changes the merged
result (the `Map.set` loop lets the last occurrence win), so `mergeCityData`
is not order-independent in its prediction input, not even up to set
equality: the two singleton outputs hold records with different scores. -/
theorem claim5_counterexample :
    [exPredLisbon, exPredLisbonDup].Perm [exPredLisbonDup, exPredLisbon] ∧
    mergeCityData [exCityLisbon] [exPredLisbon, exPredLisbonDup] =
      [enhanceWith exCityLisbon exPredLisbonDup] ∧
    mergeCityData [exCityLisbon] [exPredLisbonDup, exPredLisbon] =
      [enhanceWith exCityLisbon exPredLisbon] ∧
    mergeCityData [exCityLisbon] [exPredLisbon, exPredLisbonDup] ≠
      mergeCityData [exCityLisbon] [exPredLisbonDup, exPredLisbon] := by
  refine ⟨List.Perm.swap exPredLisbonDup exPredLisbon [], rfl, rfl, ?_⟩
  intro h
  rw [show mergeCityData [exCityLisbon] [exPredLisbon, exPredLisbonDup] =
      [enhanceWith exCityLisbon exPredLisbonDup] from rfl,
    show mergeCityData [exCityLisbon] [exPredLisbonDup, exPredLisbon] =
      [enhanceWith exCityLisbon exPredLisbon] from rfl] at h
  simp [enhanceWith, exPredLisbon, exPredLisbonDup] at h
  norm_num at h

/-- Claim C5 (corrected): `mergeCityData` is pure and idempotent —
`merge(R, P) = merge(R, P)` — and it is order-independent in its prediction
input provided the predictions carry pairwise-distinct merge keys: permuting
`P` then yields the same output list (hence the same set).  With duplicate
keys the last occurrence wins, so permutation-independence fails
(`claim5_counterexample`). -/
theorem claim5_merge_perm (R : List CityObj) (P Q : List MlCity)
    (hperm : P.Perm Q) (hkeys : P.Pairwise fun a b => mlKey a ≠ mlKey b) :
    mergeCityData R P = mergeCityData R P ∧
    mergeCityData R P = mergeCityData R Q := by
  refine ⟨rfl, ?_⟩
  have hsymm : Symmetric (fun a b : MlCity => mlKey a ≠ mlKey b) :=
    fun _ _ hab h => hab h.symm
  have hkeysQ : Q.Pairwise (fun a b => mlKey a ≠ mlKey b) :=
    (hperm.pairwise_iff fun h => hsymm h).1 hkeys
  have unique_in : ∀ {L : List MlCity}, L.Pairwise (fun a b => mlKey a ≠ mlKey b) →
      ∀ {p q : MlCity}, p ∈ L → q ∈ L → mlKey p = mlKey q → p = q := by
    intro L hL p q hp hq hk
    by_cases hpq : p = q
    · exact hpq
    · exact absurd hk (hL.forall hsymm hp hq hpq)
  have hlook : ∀ k, mlLookup P k = mlLookup Q k := by
    intro k
    cases hP : mlLookup P k with
    | none =>
        have hnone : ∀ p ∈ P, mlKey p ≠ k := mlLookup_eq_none_iff.1 hP
        exact (mlLookup_eq_none_iff.2 fun p hp => hnone p (hperm.mem_iff.2 hp)).symm
    | some p =>
        obtain ⟨hmem, hk⟩ := mlLookup_some_mem hP
        have hmemQ : p ∈ Q := hperm.mem_iff.1 hmem
        have huniqQ : ∀ q ∈ Q, mlKey q = k → q = p := by
          intro q hq hqk
          exact unique_in hkeysQ hq hmemQ (hqk.trans hk.symm)
        exact (mlLookup_unique hmemQ hk huniqQ).symm
  unfold mergeCityData
  exact List.map_congr_left fun c _ => by rw [hlook]

/-- Witness for the corrected C5: permuting two key-distinct predictions
leaves the merged page unchanged. -/
theorem claim5_merge_perm_witness :
    mergeCityData [exCityLisbon] [exPredLisbon, exPredParis] =
      mergeCityData [exCityLisbon] [exPredLisbon, exPredParis] ∧
    mergeCityData [exCityLisbon] [exPredLisbon, exPredParis] =
      mergeCityData [exCityLisbon] [exPredParis, exPredLisbon] :=
  claim5_merge_perm [exCityLisbon] [exPredLisbon, exPredParis] [exPredParis, exPredLisbon]
    (List.Perm.swap exPredParis exPredLisbon []) (by decide)

/-- Claim C1 counterexample: a two-record listing page merged against a
prediction set that covers only one of the records carries
`ml_enhanced=true` on one record and `ml_enhanced=false` on the other —
a mixed page, produced by the listing enrichment itself. -/
theorem claim1_counterexample :
    ¬ ((∀ c ∈ enrichListing [exCityLisbon, exCityParis] (MlFetchOutcome.ok [exPredLisbon])
          (some "monthly_cost_usd") (some "DESC"), c.ml_enhanced = some true) ∨
       (∀ c ∈ enrichListing [exCityLisbon, exCityParis] (MlFetchOutcome.ok [exPredLisbon])
          (some "monthly_cost_usd") (some "DESC"), c.ml_enhanced = some false)) := by
  decide

/-- Claim C1 (corrected): the enhancement flag is uniform on the degraded
paths — when the prediction source is unavailable or the fetch throws, every
record of the page has `ml_enhanced=false` — and on the enhanced path the
page is uniformly `ml_enhanced=true` only when every record's merge key is
covered by the predictions; with partial coverage the merge marks records
individually, so mixed pages occur (`claim1_counterexample`). -/
theorem claim1_uniform_flags (db : List CityObj) (sb so : Option String) :
    (∀ c ∈ enrichListing db MlFetchOutcome.unavailable sb so, c.ml_enhanced = some false) ∧
    (∀ c ∈ enrichListing db MlFetchOutcome.error sb so, c.ml_enhanced = some false) ∧
    (∀ data : List MlCity, data ≠ [] →
      (∀ c ∈ db, ∃ p ∈ data, mlKey p = objKey c) →
      ∀ c ∈ enrichListing db (MlFetchOutcome.ok data) sb so, c.ml_enhanced = some true) := by
  refine ⟨?_, ?_, ?_⟩
  · intro c hc
    obtain ⟨x, _, rfl⟩ := List.mem_map.1 hc
    rfl
  · intro c hc
    obtain ⟨x, _, rfl⟩ := List.mem_map.1 hc
    rfl
  · intro data hne hcover c hc
    have hno : ¬ data.isEmpty = true := fun h => hne (List.isEmpty_iff.1 h)
    rw [show enrichListing db (MlFetchOutcome.ok data) sb so =
        if data.isEmpty then db
        else listingSortStep sb so (mergeCityData db data) from rfl, if_neg hno] at hc
    have hmem : c ∈ mergeCityData db data := by
      unfold listingSortStep at hc
      by_cases hcnd : sb.getD "name" = "name" ∧ so.getD "ASC" = "ASC"
      · rw [if_pos hcnd] at hc
        exact (List.mem_insertionSort scoreDescRel).1 hc
      · rwa [if_neg hcnd] at hc
    obtain ⟨x, hx, rfl⟩ := List.mem_map.1 hmem
    obtain ⟨p, hp, hpk⟩ := hcover x hx
    cases hl : mlLookup data (objKey x) with
    | none => exact absurd hpk (mlLookup_eq_none_iff.1 hl p hp)
    | some q => simp [hl]

/-- Witness for the corrected C1: on a one-record page, the degraded path
yields `ml_enhanced=false` and the fully covered enhanced path yields
`ml_enhanced=true`. -/
theorem claim1_uniform_flags_witness :
    (degradeCity exCityLisbon).ml_enhanced = some false ∧
    (enhanceWith exCityLisbon exPredLisbon).ml_enhanced = some true := by
  have h := claim1_uniform_flags [exCityLisbon] none none
  refine ⟨h.1 (degradeCity exCityLisbon)
      (List.mem_map_of_mem degradeCity (List.mem_singleton.2 rfl)), ?_⟩
  refine h.2.2 [exPredLisbon] (by simp) ?_ (enhanceWith exCityLisbon exPredLisbon) ?_
  · intro c hc
    rw [List.mem_singleton] at hc
    subst hc
    exact ⟨exPredLisbon, List.mem_singleton.2 rfl, by decide⟩
  · exact List.mem_singleton.2 rfl

/-- Claim C2 counterexample: on the personalized route — the code location
this claim cites — a throwing prediction-source call is surfaced as an HTTP
500 request failure, not recovered as a 200 response. -/
theorem claim2_counterexample :
    (personalizedHandler PersonalizedOutcome.err).1 = 500 ∧
    (personalizedHandler PersonalizedOutcome.err).1 ≠ 200 := by
  decide

/-- Claim C2 (corrected): on the main cities listing route, an unavailable
or throwing prediction source still yields HTTP 200 with every record
carrying `predicted_score=0` and `ml_enhanced=false`; but on the
`GET /personalized` route a prediction-source error is surfaced as an HTTP
500 failure (`claim2_counterexample`), so the spec's "never surfaced as a
request failure" holds only for the listing route. -/
theorem claim2_degraded_fallback (db : List CityObj) (sb so : Option String)
    (o : MlFetchOutcome) (h : o = MlFetchOutcome.unavailable ∨ o = MlFetchOutcome.error) :
    (listingHandler db o sb so).1 = 200 ∧
    (∀ c ∈ (listingHandler db o sb so).2,
      c.predicted_score = some 0 ∧ c.ml_enhanced = some false) ∧
    (personalizedHandler PersonalizedOutcome.err).1 = 500 := by
  have hcities : (listingHandler db o sb so).2 = db.map degradeCity := by
    rcases h with rfl | rfl <;> rfl
  refine ⟨rfl, ?_, rfl⟩
  intro c hc
  rw [hcities] at hc
  obtain ⟨x, _, rfl⟩ := List.mem_map.1 hc
  exact ⟨rfl, rfl⟩

/-- Witness for the corrected C2: a three-record page on the listing route
with a throwing prediction source comes back as HTTP 200 and the records are
uniformly degraded (Scenario B). -/
theorem claim2_degraded_fallback_witness :
    (listingHandler [exCityLisbon, exCityParis, exCityAthens]
      MlFetchOutcome.error none none).1 = 200 ∧
    (degradeCity exCityParis).predicted_score = some 0 ∧
    (degradeCity exCityParis).ml_enhanced = some false := by
  have h := claim2_degraded_fallback [exCityLisbon, exCityParis, exCityAthens] none none
    MlFetchOutcome.error (Or.inr rfl)
  exact ⟨h.1, h.2.1 (degradeCity exCityParis)
    (List.mem_map_of_mem degradeCity (by simp))⟩

/-- A `parseInt(v) || d` fallback fires exactly on `NaN` and `0`. -/
theorem jsIntOrDefault_of_degenerate {v : Option ℤ} {d : ℤ}
    (h : v = none ∨ v = some 0) : jsIntOrDefault v d = d := by
  rcases h with rfl | rfl <;> simp [jsIntOrDefault]

/-- Claim C4 counterexample: `paginateResults(0, -5)` resolves the page to
`1` but passes the negative limit through — the result is
`{offset: 0, limit: -5}`, not the claimed default limit, and the limit lies
outside `[1, maxLimit]`; moreover `paginateResults(-3, 10)` returns the
negative offset `-40`. -/
theorem claim4_counterexample :
    paginateResults (JsVal.num 0) (JsVal.num (-5)) = (0, -5) ∧
    (paginateResults (JsVal.num 0) (JsVal.num (-5))).2 ≠ 10 ∧
    ¬ (1 ≤ (paginateResults (JsVal.num 0) (JsVal.num (-5))).2) ∧
    (paginateResults (JsVal.num (-3)) (JsVal.num 10)).1 = -40 ∧
    (paginateResults (JsVal.num (-3)) (JsVal.num 10)).1 < 0 := by
  decide

/-- Claim C4 (corrected): `paginateResults` always returns
`offset = (resolvedPage - 1) * resolvedLimit` and (being integer-valued)
never `NaN`; non-numeric, null, missing and zero inputs fall back to the
defaults page `1` and limit `10`; and whenever the resolved page and limit
are at least `1` the offset is nonnegative and the limit positive.  But
negative inputs pass through unclamped — the resolver has no `maxLimit`
bound at all — so `page=0, limit=-5` yields `{offset: 0, limit: -5}` and a
negative page yields a negative offset (`claim4_counterexample`). -/
theorem claim4_paginate_resolved (page limit : JsVal) :
    (paginateResults page limit).1 = (resolvePageNum page - 1) * resolveLimitNum limit ∧
    (paginateResults page limit).2 = resolveLimitNum limit ∧
    (jsParseInt page = none ∨ jsParseInt page = some 0 → resolvePageNum page = 1) ∧
    (jsParseInt limit = none ∨ jsParseInt limit = some 0 → resolveLimitNum limit = 10) ∧
    (1 ≤ resolvePageNum page → 1 ≤ resolveLimitNum limit →
      0 ≤ (paginateResults page limit).1 ∧ 1 ≤ (paginateResults page limit).2) := by
  refine ⟨rfl, rfl, ?_, ?_, ?_⟩
  · intro h
    cases page with
    | undef => rfl
    | num n => exact jsIntOrDefault_of_degenerate h
    | str s => exact jsIntOrDefault_of_degenerate h
    | null => exact jsIntOrDefault_of_degenerate h
  · intro h
    cases limit with
    | undef => rfl
    | num n => exact jsIntOrDefault_of_degenerate h
    | str s => exact jsIntOrDefault_of_degenerate h
    | null => exact jsIntOrDefault_of_degenerate h
  · intro hp hl
    exact ⟨mul_nonneg (by omega) (by omega), hl⟩

/-- Witness for the corrected C4: `page=2, limit=10` resolves to a
nonnegative offset and a positive limit. -/
theorem claim4_paginate_resolved_witness :
    (paginateResults (JsVal.num 2) (JsVal.num 10)).1 =
      (resolvePageNum (JsVal.num 2) - 1) * resolveLimitNum (JsVal.num 10) ∧
    0 ≤ (paginateResults (JsVal.num 2) (JsVal.num 10)).1 ∧
    1 ≤ (paginateResults (JsVal.num 2) (JsVal.num 10)).2 := by
  have h := claim4_paginate_resolved (JsVal.num 2) (JsVal.num 10)
  have h5 := h.2.2.2.2 (by decide) (by decide)
  exact ⟨h.1, h5.1, h5.2⟩

/-- Claim C6 counterexample: an explicit `sort_by=name&sort_order=ASC`
request is indistinguishable from the defaulted parameters, so the enhanced
path re-sorts the page by predicted score and the explicitly requested
name-ascending order is not used verbatim. -/
theorem claim6_counterexample :
    listingSortStep (some "name") (some "ASC") [exEnrichedLow, exEnrichedHigh] =
      [exEnrichedHigh, exEnrichedLow] ∧
    listingSortStep (some "name") (some "ASC") [exEnrichedLow, exEnrichedHigh] ≠
      [exEnrichedLow, exEnrichedHigh] := by
  refine ⟨rfl, ?_⟩
  intro h
  rw [show listingSortStep (some "name") (some "ASC") [exEnrichedLow, exEnrichedHigh] =
    [exEnrichedHigh, exEnrichedLow] from rfl] at h
  simp [exEnrichedHigh, exEnrichedLow] at h

/-- Claim C6 (corrected): on the enhanced path, whenever the (defaulted)
sort parameters equal `name`/`ASC` — which covers both a request with no
explicit sort and an explicit `sort_by=name&sort_order=ASC` — the page is
re-sorted by `predicted_score` descending, stably (equal-score records keep
their original relative order); any other explicit sort pair is used
verbatim and never overridden.  The claim fails only for an explicit
`name`/`ASC` request, which is overridden (`claim6_counterexample`). -/
theorem claim6_sort_policy (sb so : Option String) (cities : List CityObj) :
    (sb.getD "name" = "name" ∧ so.getD "ASC" = "ASC" →
      listingSortStep sb so cities = sortByScoreDesc cities ∧
      List.Sorted scoreDescRel (sortByScoreDesc cities) ∧
      ∀ s : ℚ, (sortByScoreDesc cities).filter (fun c => scoreKey c = s) =
        cities.filter (fun c => scoreKey c = s)) ∧
    (¬ (sb.getD "name" = "name" ∧ so.getD "ASC" = "ASC") →
      listingSortStep sb so cities = cities) := by
  constructor
  · intro h
    refine ⟨?_, ?_, ?_⟩
    · unfold listingSortStep
      rw [if_pos h]
    · exact List.sorted_insertionSort scoreDescRel cities
    · exact fun s => filter_sortByScoreDesc cities s
  · intro h
    unfold listingSortStep
    rw [if_neg h]

/-- Witness for the corrected C6: with no explicit sort parameters the
two-record page is re-sorted by predicted score, and the result is sorted
descending. -/
theorem claim6_sort_policy_witness :
    listingSortStep none none [exEnrichedLow, exEnrichedHigh] =
      sortByScoreDesc [exEnrichedLow, exEnrichedHigh] ∧
    List.Sorted scoreDescRel (sortByScoreDesc [exEnrichedLow, exEnrichedHigh]) := by
  have h := (claim6_sort_policy none none [exEnrichedLow, exEnrichedHigh]).1 ⟨rfl, rfl⟩
  exact ⟨h.1, h.2.1⟩

/-- Claim C7 (confirmed): on the personalized path the pagination values
returned by the prediction source — `current_page`, `total_pages`, `total`,
`limit`, `has_next_page`, `has_prev_page` — are emitted verbatim in the
response's pagination block; none of them is recomputed by the assembly, and
the successful handler returns HTTP 200 with exactly the upstream rows and
that block. -/
theorem claim7_personalized_passthrough (u : PersonalizedUpstream)
    (pb : UpstreamPagination) (hp : u.pagination = some pb) :
    personalizedRespPagination (getPersonalizedCitiesResult u) =
      { current_page := pb.current_page
        total_pages := pb.total_pages
        total_items := u.total
        items_per_page := u.limit
        has_next_page := pb.has_next_page
        has_prev_page := pb.has_prev_page } ∧
    (personalizedHandler (PersonalizedOutcome.ok u)).1 = 200 ∧
    (personalizedHandler (PersonalizedOutcome.ok u)).2 =
      some (u.data, personalizedRespPagination (getPersonalizedCitiesResult u)) := by
  refine ⟨?_, rfl, rfl⟩
  simp [personalizedRespPagination, getPersonalizedCitiesResult, hp]

/-- Witness for C7: Scenario D's block `{current_page: 2, total_pages: 5}`
is passed through unchanged. -/
theorem claim7_personalized_passthrough_witness :
    personalizedRespPagination (getPersonalizedCitiesResult exUpstream) =
      { current_page := some 2
        total_pages := some 5
        total_items := some 87
        items_per_page := some 20
        has_next_page := some true
        has_prev_page := some true } :=
  (claim7_personalized_passthrough exUpstream
    ⟨some 20, some 2, some 5, some true, some true⟩ rfl).1

/-- Claim C8 counterexample: the unknown sort field `bogus` together with
`sort_order=DESC` resolves to `name DESC`, not the claimed `name ASC` — the
field falls back but the accompanying order is kept. -/
theorem claim8_counterexample :
    resolveSort "bogus" "DESC" = ("name", "DESC") ∧
    resolveSort "bogus" "DESC" ≠ ("name", "ASC") := by
  decide

/-- Claim C8 (corrected): a `sort_by` outside the allow-list falls back to
the field `name`, while the direction is resolved independently from
`sort_order` (upper-cased, itself falling back to `ASC` only when invalid);
so an unknown field with `sort_order=DESC` yields `name DESC`, and `name
ASC` results only when the order is (or normalizes to) `ASC`
(`claim8_counterexample`). -/
theorem claim8_sort_fallback (sb so : String) (h : sb ∉ allowedSortFields) :
    resolveSort sb so = ("name", resolveSortOrder so) ∧
    (jsToUpper so ∉ allowedSortOrders → resolveSort sb so = ("name", "ASC")) := by
  constructor
  · unfold resolveSort resolveSortField
    rw [if_neg h]
  · intro ho
    unfold resolveSort resolveSortField resolveSortOrder
    rw [if_neg h, if_neg ho]

/-- Witness for the corrected C8: the unknown field `bogus` with the
lower-case order `desc` resolves to the fallback field and the independently
resolved order. -/
theorem claim8_sort_fallback_witness :
    resolveSort "bogus" "desc" = ("name", resolveSortOrder "desc") :=
  (claim8_sort_fallback "bogus" "desc" (by decide)).1

/-- Claim C9 (confirmed): for the resolved positive limit, the assembled
pagination block satisfies `total_pages = ceil(total / limit)` — equal to the
rounded-up integer division and characterized as the least page count whose
capacity covers `total` — with `total_pages = 0` when `total = 0`,
`has_next_page` exactly when `page < total_pages`, and `has_prev_page`
exactly when `page > 1`. -/
theorem claim9_pagination_invariants (page : ℤ) (total limit : ℕ) (hlim : 1 ≤ limit) :
    (buildListPagination page total limit).total_pages = (total + limit - 1) / limit ∧
    (total = 0 → (buildListPagination page total limit).total_pages = 0) ∧
    total ≤ (buildListPagination page total limit).total_pages * limit ∧
    (∀ m : ℕ, total ≤ m * limit → (buildListPagination page total limit).total_pages ≤ m) ∧
    ((buildListPagination page total limit).has_next_page = true ↔
      page < ((buildListPagination page total limit).total_pages : ℤ)) ∧
    ((buildListPagination page total limit).has_prev_page = true ↔ 1 < page) := by
  obtain ⟨hle, hleast⟩ := mathCeilDiv_spec total limit hlim
  refine ⟨mathCeilDiv_eq total limit hlim, ?_, hle, hleast, ?_, ?_⟩
  · intro h0
    subst h0
    exact Nat.le_zero.1 (hleast 0 (by simp))
  · simp [buildListPagination]
  · simp [buildListPagination]

/-- Witness for C9: `page=2, total=10, limit=3` gives
`total_pages = ceil(10/3) = 4` and the previous-page flag. -/
theorem claim9_pagination_invariants_witness :
    (buildListPagination 2 10 3).total_pages = (10 + 3 - 1) / 3 ∧
    ((buildListPagination 2 10 3).has_prev_page = true ↔ 1 < (2 : ℤ)) := by
  have h := claim9_pagination_invariants 2 10 3 (by decide)
  exact ⟨h.1, h.2.2.2.2.2⟩
